import Mathlib

/-!
Shallow embedding of `main.go` of the fingerprint-sensor-server repository.

The whole program is one HTTP handler, `HandleCapture`: it resolves a Python
interpreter (preferring a virtual-environment executable when `os.Stat`
succeeds on its path), spawns `capture.py` as a child process with stdout and
stderr captured into two separate in-memory buffers, and maps the outcome to
an HTTP response (200 `image/png` with the stdout bytes, or 500 via
`http.Error`).

The handler is embedded as a pure function from a per-request environment
(`World`) to a trace of observable effects (`Effect`), in the order the Go
code performs them.  Go byte buffers and Go strings are byte sequences and
are represented as `List Nat`; filesystem paths and executable names, which
are ordinary ASCII strings in the program, are kept as Lean `String`s.
-/

namespace FingerprintServer

/-- Byte encoding of an ASCII string literal.  Go strings are byte
sequences; every string literal occurring in `main.go` is ASCII, where the
UTF-8 byte of a character is exactly its code point, so mapping `Char.toNat`
yields the literal's bytes.  Raw subprocess output never passes through this
function: it is represented directly as `List Nat`. -/
def strBytes (s : String) : List Nat :=
  s.data.map Char.toNat

/-- Outcome of `cmd.Run()` for one spawned subprocess.  `err = some msg`
models `Run` returning a non-nil error (spawn failure or non-zero exit),
with `msg` the bytes of the error text as formatted by `%v`; `err = none`
models a successful spawn with exit status 0.  `stdout` and `stderr` are the
contents of the two separate in-memory buffers (`stdoutBuf`, `stderrBuf`)
the child's streams were redirected into. -/
structure RunResult where
  err : Option (List Nat)
  stdout : List Nat
  stderr : List Nat
  deriving DecidableEq

/-- Observable effects of one handler invocation, in program order:
spawning the child process and blocking on it, writing a server-side log
line, setting a response header, committing a response status, writing
response body bytes, and the deferred log line that reports elapsed
wall-clock time (the measured duration itself is abstracted away). -/
inductive Effect where
  | spawn (name : String) (args : List String)
  | logMsg (msg : List Nat)
  | setHeader (key value : String)
  | writeStatus (code : Nat)
  | writeBody (bs : List Nat)
  | logElapsed
  deriving DecidableEq

/-- Per-request environment, holding everything outside the handler that the
handler's control flow depends on: `goos` is `runtime.GOOS`; `statOk p` is
true when `os.Stat p` returns a nil error; `abs p` is the result of
`filepath.Abs p`, with `none` modelling the error case (in which Go's
`filepath.Abs` returns the empty string alongside the error); `run name
args` is the outcome of running the subprocess with that argv; and
`copyErrAfter = some k` models `io.Copy` into the response failing after `k`
bytes were written (for example because the client disconnected), `none`
modelling a fully successful copy. -/
structure World where
  goos : String
  statOk : String → Bool
  abs : String → Option String
  run : String → List String → RunResult
  copyErrAfter : Option Nat

/-- The fixed script path: `const pythonScript = "capture.py"`. -/
def pythonScript : String := "capture.py"

/-- Path separator used by `filepath.Join`, which follows the target OS. -/
def sep (goos : String) : String :=
  if goos = "windows" then "\\" else "/"

/-- `filepath.Join` of two components.  `Join` also cleans the result, but
cleaning is the identity on the already-clean components used here. -/
def joinPath (goos : String) (a b : String) : String :=
  a ++ sep goos ++ b

/-- The candidate virtual-environment interpreter path:
`filepath.Join("venv", "bin", "python3")`, overwritten with
`filepath.Join("venv", "Scripts", "python.exe")` when `runtime.GOOS` is
`"windows"`. -/
def venvPythonPath (goos : String) : String :=
  if goos = "windows" then joinPath goos (joinPath goos "venv" "Scripts") "python.exe"
  else joinPath goos (joinPath goos "venv" "bin") "python3"

/-- The OS-appropriate default interpreter executable name: `"python3"`,
overwritten with `"python"` when `runtime.GOOS` is `"windows"`. -/
def defaultPythonExec (goos : String) : String :=
  if goos = "windows" then "python" else "python3"

/-- Interpreter resolution, lines 30-45 of `main.go`: when `os.Stat` on the
virtual-environment path returns a nil error, the path is passed through
`filepath.Abs` — whose error, if any, is discarded with `_`, leaving the
empty string `filepath.Abs` returned alongside it — and the result becomes
`pythonExec`; otherwise `pythonExec` keeps the OS-appropriate default
name. -/
def resolvePythonExec (w : World) : String :=
  if w.statOk (venvPythonPath w.goos) then
    match w.abs (venvPythonPath w.goos) with
    | some p => p
    | none => ""
  else defaultPythonExec w.goos

/-- The log line emitted inside the stat-probe branch:
`log.Println("Found virtual environment python executable at", venvPythonPath)`
(Println joins its operands with a space). -/
def statLogs (w : World) : List Effect :=
  if w.statOk (venvPythonPath w.goos) then
    [Effect.logMsg (strBytes ("Found virtual environment python executable at "
      ++ venvPythonPath w.goos))]
  else []

/-- Model of `net/http.Error(w, msg, code)`: it sets
`Content-Type: text/plain; charset=utf-8` (and `X-Content-Type-Options:
nosniff`, and deletes any Content-Length), writes the status code, and
writes the message followed by exactly one newline (`fmt.Fprintln`). -/
def httpError (msg : List Nat) (code : Nat) : List Effect :=
  [Effect.setHeader "Content-Type" "text/plain; charset=utf-8",
   Effect.setHeader "X-Content-Type-Options" "nosniff",
   Effect.writeStatus code,
   Effect.writeBody (msg ++ [10])]

/-- Effects performed after `cmd.Run()` returns, lines 54-77 of `main.go`.
On a non-nil `Run` error: three log lines (the error, the full stdout, the
full stderr — the latter two via `"Python stdout:\n%s\n"` and
`"Python stderr:\n%s\n"`), then `http.Error` with
`"Failed to capture fingerprint: " + stderrBuf.String()` and status 500.
On a nil error with an empty stdout buffer: one log line, then `http.Error`
with the fixed no-data message and status 500.  Otherwise: the
`Content-Type: image/png` header is set, the first `Write` of `io.Copy`
commits the implicit 200 status, and the stdout buffer is copied into the
response — fully when the copy succeeds, or its first `k` bytes when the
copy fails after `k` bytes, in which case the handler just returns. -/
def respond (r : RunResult) (copyErrAfter : Option Nat) : List Effect :=
  match r.err with
  | some e =>
      [Effect.logMsg (strBytes "Failed to capture fingerprint " ++ e),
       Effect.logMsg (strBytes "Python stdout:\n" ++ r.stdout ++ [10]),
       Effect.logMsg (strBytes "Python stderr:\n" ++ r.stderr ++ [10])]
      ++ httpError (strBytes "Failed to capture fingerprint: " ++ r.stderr) 500
  | none =>
      if r.stdout.isEmpty then
        [Effect.logMsg (strBytes "Python script returned empty output.")]
          ++ httpError (strBytes "No data received from Python script") 500
      else
        [Effect.setHeader "Content-Type" "image/png",
         Effect.writeStatus 200,
         Effect.writeBody (match copyErrAfter with
           | none => r.stdout
           | some k => r.stdout.take k)]

/-- The full effect trace of one `HandleCapture` invocation: the optional
resolution log, the single subprocess spawn
`exec.Command(pythonExec, pythonScript)` followed by the blocking
`cmd.Run()`, the outcome-dependent response effects, and — last on every
path, because it is deferred — the elapsed-time log line. -/
def handleCapture (w : World) : List Effect :=
  statLogs w
    ++ [Effect.spawn (resolvePythonExec w) [pythonScript]]
    ++ respond (w.run (resolvePythonExec w) [pythonScript]) w.copyErrAfter
    ++ [Effect.logElapsed]

/-- The status code of the response: the first committed status write. -/
def respStatus : List Effect → Option Nat
  | [] => none
  | Effect.writeStatus c :: _ => some c
  | _ :: es => respStatus es

/-- The response body: the concatenation of all body writes. -/
def respBody : List Effect → List Nat
  | [] => []
  | Effect.writeBody bs :: es => bs ++ respBody es
  | _ :: es => respBody es

/-- The final value of a response header: the last `setHeader` for the key
before the status is committed (headers set afterwards are not sent). -/
def respHeader (k : String) : List Effect → Option String
  | [] => none
  | Effect.writeStatus _ :: _ => none
  | Effect.setHeader k2 v :: es =>
      match respHeader k es with
      | some v2 => some v2
      | none => if k2 = k then some v else none
  | _ :: es => respHeader k es

/-- All server-side log lines of the trace, in order. -/
def respLogs : List Effect → List (List Nat)
  | [] => []
  | Effect.logMsg m :: es => m :: respLogs es
  | _ :: es => respLogs es

/-- All subprocess spawns of the trace, in order, as (name, argv) pairs. -/
def spawnsOf : List Effect → List (String × List String)
  | [] => []
  | Effect.spawn n a :: es => (n, a) :: spawnsOf es
  | _ :: es => spawnsOf es

/-- All committed status writes of the trace, in order. -/
def statusesOf : List Effect → List Nat
  | [] => []
  | Effect.writeStatus c :: es => c :: statusesOf es
  | _ :: es => statusesOf es

/-- Whether an effect is a body write. -/
def isWriteBody : Effect → Bool
  | Effect.writeBody _ => true
  | _ => false

/-- Whether an effect touches the HTTP response (header, status or body). -/
def isRespWrite : Effect → Bool
  | Effect.setHeader _ _ => true
  | Effect.writeStatus _ => true
  | Effect.writeBody _ => true
  | _ => false

/-- Whether an effect is the subprocess spawn. -/
def isSpawn : Effect → Bool
  | Effect.spawn _ _ => true
  | _ => false

/-! Helper lemmas: the extraction functions ignore the trailing deferred
log effect and the log/spawn prefix, so each reduces on a full handler
trace to its value on the `respond` segment. -/

lemma respStatus_append_logElapsed (l : List Effect) :
    respStatus (l ++ [Effect.logElapsed]) = respStatus l := by
  induction l with
  | nil => rfl
  | cons e es ih => cases e <;> simp [respStatus, ih]

lemma respBody_append_logElapsed (l : List Effect) :
    respBody (l ++ [Effect.logElapsed]) = respBody l := by
  induction l with
  | nil => rfl
  | cons e es ih => cases e <;> simp [respBody, ih]

lemma respHeader_append_logElapsed (k : String) (l : List Effect) :
    respHeader k (l ++ [Effect.logElapsed]) = respHeader k l := by
  induction l with
  | nil => rfl
  | cons e es ih => cases e <;> simp [respHeader, ih]

lemma respLogs_append_logElapsed (l : List Effect) :
    respLogs (l ++ [Effect.logElapsed]) = respLogs l := by
  induction l with
  | nil => rfl
  | cons e es ih => cases e <;> simp [respLogs, ih]

lemma statusesOf_append_logElapsed (l : List Effect) :
    statusesOf (l ++ [Effect.logElapsed]) = statusesOf l := by
  induction l with
  | nil => rfl
  | cons e es ih => cases e <;> simp [statusesOf, ih]

lemma spawnsOf_append_logElapsed (l : List Effect) :
    spawnsOf (l ++ [Effect.logElapsed]) = spawnsOf l := by
  induction l with
  | nil => rfl
  | cons e es ih => cases e <;> simp [spawnsOf, ih]

lemma respStatus_handleCapture (w : World) :
    respStatus (handleCapture w)
      = respStatus (respond (w.run (resolvePythonExec w) [pythonScript]) w.copyErrAfter) := by
  unfold handleCapture statLogs
  split <;> simp [respStatus, respStatus_append_logElapsed]

lemma respBody_handleCapture (w : World) :
    respBody (handleCapture w)
      = respBody (respond (w.run (resolvePythonExec w) [pythonScript]) w.copyErrAfter) := by
  unfold handleCapture statLogs
  split <;> simp [respBody, respBody_append_logElapsed]

lemma respHeader_handleCapture (k : String) (w : World) :
    respHeader k (handleCapture w)
      = respHeader k (respond (w.run (resolvePythonExec w) [pythonScript]) w.copyErrAfter) := by
  unfold handleCapture statLogs
  split <;> simp [respHeader, respHeader_append_logElapsed]

lemma statusesOf_handleCapture (w : World) :
    statusesOf (handleCapture w)
      = statusesOf (respond (w.run (resolvePythonExec w) [pythonScript]) w.copyErrAfter) := by
  unfold handleCapture statLogs
  split <;> simp [statusesOf, statusesOf_append_logElapsed]

lemma respLogs_append (l1 l2 : List Effect) :
    respLogs (l1 ++ l2) = respLogs l1 ++ respLogs l2 := by
  induction l1 with
  | nil => rfl
  | cons e es ih => cases e <;> simp [respLogs, ih]

lemma respLogs_handleCapture (w : World) :
    respLogs (handleCapture w)
      = respLogs (statLogs w)
        ++ respLogs (respond (w.run (resolvePythonExec w) [pythonScript]) w.copyErrAfter) := by
  unfold handleCapture
  rw [respLogs_append, respLogs_append, respLogs_append]
  simp [respLogs]

lemma spawnsOf_respond (r : RunResult) (c : Option Nat) :
    spawnsOf (respond r c) = [] := by
  cases herr : r.err with
  | some e => simp [respond, herr, httpError, spawnsOf]
  | none =>
    cases c <;> by_cases hs : r.stdout.isEmpty <;>
      simp [respond, herr, hs, httpError, spawnsOf]

lemma isEmpty_false_of_ne_nil {l : List Nat} (h : l ≠ []) : l.isEmpty = false := by
  cases l with
  | nil => exact absurd rfl h
  | cons a t => rfl

/-! Claim theorems. -/

/-- C1: for every request to GET /capture where the spawned child process
exits 0 and writes N>0 bytes to its standard output (and the copy of the
buffer into the response stream does not fail — write failure is the
separate abandoned-response case), the handler responds with status 200,
header `Content-Type: image/png`, and a response body equal to those N
stdout bytes exactly, byte-for-byte, never partially forwarded and never
transformed. -/
theorem success_response_forwards_stdout (w : World) (r : RunResult)
    (hr : w.run (resolvePythonExec w) [pythonScript] = r)
    (herr : r.err = none) (hne : r.stdout ≠ [])
    (hcopy : w.copyErrAfter = none) :
    respStatus (handleCapture w) = some 200 ∧
    respHeader "Content-Type" (handleCapture w) = some "image/png" ∧
    respBody (handleCapture w) = r.stdout := by
  rw [respStatus_handleCapture, respHeader_handleCapture, respBody_handleCapture, hr, hcopy]
  simp [respond, herr, isEmpty_false_of_ne_nil hne, respStatus, respHeader, respBody]

/-- Concrete environment for the C1 witness: no virtual environment, the
child exits 0 printing the six bytes of "OKDATA", the copy succeeds. -/
def wOkData : World :=
  { goos := "linux", statOk := fun _ => false, abs := fun _ => none,
    run := fun _ _ => { err := none, stdout := [79, 75, 68, 65, 84, 65], stderr := [] },
    copyErrAfter := none }

/-- Witness for C1 at the concrete "OKDATA" environment. -/
theorem success_response_forwards_stdout_w :
    respStatus (handleCapture wOkData) = some 200 ∧
    respHeader "Content-Type" (handleCapture wOkData) = some "image/png" ∧
    respBody (handleCapture wOkData) = [79, 75, 68, 65, 84, 65] :=
  success_response_forwards_stdout wOkData
    { err := none, stdout := [79, 75, 68, 65, 84, 65], stderr := [] }
    rfl rfl (by decide) rfl

/-- C2: interpreter resolution.  When `os.Stat` succeeds on the OS-specific
virtual-environment path (`venv/bin/python3` on non-windows,
`venv\Scripts\python.exe` on windows), that path resolved to absolute form
becomes the interpreter; when the probe fails for any reason, the
OS-appropriate default executable name (`python3` on non-windows, `python`
on windows) is used. -/
theorem interpreter_resolution (w : World) (a : String) :
    (w.statOk (venvPythonPath w.goos) = true →
      w.abs (venvPythonPath w.goos) = some a → resolvePythonExec w = a) ∧
    (w.statOk (venvPythonPath w.goos) = false →
      resolvePythonExec w = defaultPythonExec w.goos) ∧
    venvPythonPath "windows" = "venv\\Scripts\\python.exe" ∧
    (w.goos ≠ "windows" → venvPythonPath w.goos = "venv/bin/python3") ∧
    defaultPythonExec "windows" = "python" ∧
    (w.goos ≠ "windows" → defaultPythonExec w.goos = "python3") := by
  refine ⟨?_, ?_, by decide, ?_, by decide, ?_⟩
  · intro hs ha
    simp [resolvePythonExec, hs, ha]
  · intro hs
    simp [resolvePythonExec, hs]
  · intro h
    simp only [venvPythonPath, joinPath, sep, if_neg h]
    rfl
  · intro h
    simp only [defaultPythonExec, if_neg h]

/-- Concrete environment for C2 with the virtual-environment interpreter
present and resolvable to an absolute path. -/
def wVenv : World :=
  { goos := "linux", statOk := fun _ => true,
    abs := fun _ => some "/srv/app/venv/bin/python3",
    run := fun _ _ => { err := none, stdout := [1], stderr := [] },
    copyErrAfter := none }

/-- Concrete environment for C2 with no virtual environment present. -/
def wNoVenv : World :=
  { goos := "linux", statOk := fun _ => false, abs := fun _ => none,
    run := fun _ _ => { err := none, stdout := [1], stderr := [] },
    copyErrAfter := none }

/-- Witness for C2, exercising both resolution branches. -/
theorem interpreter_resolution_w :
    resolvePythonExec wVenv = "/srv/app/venv/bin/python3" ∧
    resolvePythonExec wNoVenv = "python3" :=
  ⟨(interpreter_resolution wVenv "/srv/app/venv/bin/python3").1 rfl rfl,
   ((interpreter_resolution wNoVenv "").2.1) rfl⟩

/-- C4: for every request where the child process exits 0 but writes zero
bytes to stdout, the handler responds with status 500 and a body equal to
the fixed no-data message written by `http.Error`
(`"No data received from Python script"` plus its newline), regardless of
what the child wrote to stderr. -/
theorem empty_output_yields_500 (w : World) (r : RunResult)
    (hr : w.run (resolvePythonExec w) [pythonScript] = r)
    (herr : r.err = none) (hempty : r.stdout = []) :
    respStatus (handleCapture w) = some 500 ∧
    respBody (handleCapture w) = strBytes "No data received from Python script" ++ [10] := by
  rw [respStatus_handleCapture, respBody_handleCapture, hr]
  simp [respond, herr, hempty, httpError, respStatus, respBody]

/-- Concrete environment for the C4 witness: the child exits 0 with empty
stdout and non-empty stderr. -/
def wEmptyOut : World :=
  { goos := "linux", statOk := fun _ => false, abs := fun _ => none,
    run := fun _ _ => { err := none, stdout := [], stderr := [119, 97, 114, 110] },
    copyErrAfter := none }

/-- Witness for C4 at a concrete environment whose child wrote to stderr. -/
theorem empty_output_yields_500_w :
    respStatus (handleCapture wEmptyOut) = some 500 ∧
    respBody (handleCapture wEmptyOut)
      = strBytes "No data received from Python script" ++ [10] :=
  empty_output_yields_500 wEmptyOut
    { err := none, stdout := [], stderr := [119, 97, 114, 110] } rfl rfl rfl

/-- C7: on every exit path of the capture handler, the deferred
elapsed-time log line is the last effect of the invocation, after all
response activity (the measured wall-clock duration itself is abstracted;
the theorem states the structural property that the timing log runs on
every path, after everything else). -/
theorem elapsed_log_on_every_path (w : World) :
    (handleCapture w).getLast? = some Effect.logElapsed := by
  unfold handleCapture
  rw [List.getLast?_concat]

/-- Concrete environment for the C3 counterexample: the child exits 1
having written the single byte `x` (120) to stderr. -/
def wFail : World :=
  { goos := "linux", statOk := fun _ => false, abs := fun _ => none,
    run := fun _ _ =>
      { err := some (strBytes "exit status 1"), stdout := [], stderr := [120] },
    copyErrAfter := none }

/-- C3 counterexample: on the failure path the response body is NOT the
fixed prefix followed by the stderr buffer contents — `http.Error` appends
a newline after the stderr bytes, so the body is that concatenation plus a
trailing byte 10. -/
theorem failure_body_not_prefix_stderr_cex :
    respStatus (handleCapture wFail) = some 500 ∧
    ¬ respBody (handleCapture wFail)
        = strBytes "Failed to capture fingerprint: " ++ [120] := by
  constructor
  · decide
  · decide

/-- C3 (amended): for every request where the child process exits non-zero
or the spawn itself fails, the handler responds with status 500 and a body
equal to the fixed prefix `"Failed to capture fingerprint: "` followed by
the captured stderr buffer contents followed by the single newline appended
by `http.Error`, and also logs the error, the full stdout, and the full
stderr server-side. -/
theorem failure_response_carries_stderr (w : World) (r : RunResult) (e : List Nat)
    (hr : w.run (resolvePythonExec w) [pythonScript] = r)
    (herr : r.err = some e) :
    respStatus (handleCapture w) = some 500 ∧
    respBody (handleCapture w)
      = strBytes "Failed to capture fingerprint: " ++ r.stderr ++ [10] ∧
    strBytes "Failed to capture fingerprint " ++ e ∈ respLogs (handleCapture w) ∧
    strBytes "Python stdout:\n" ++ r.stdout ++ [10] ∈ respLogs (handleCapture w) ∧
    strBytes "Python stderr:\n" ++ r.stderr ++ [10] ∈ respLogs (handleCapture w) := by
  have hlogs := respLogs_handleCapture w
  rw [hr] at hlogs
  rw [respStatus_handleCapture, respBody_handleCapture, hr]
  refine ⟨?_, ?_, ?_, ?_, ?_⟩ <;>
    simp [hlogs, respond, herr, httpError, respStatus, respBody, respLogs]

/-- Witness for the amended C3 at the concrete failing environment. -/
theorem failure_response_carries_stderr_w :
    respStatus (handleCapture wFail) = some 500 ∧
    respBody (handleCapture wFail)
      = strBytes "Failed to capture fingerprint: " ++ [120] ++ [10] ∧
    strBytes "Failed to capture fingerprint " ++ strBytes "exit status 1"
      ∈ respLogs (handleCapture wFail) ∧
    strBytes "Python stdout:\n" ++ [] ++ [10] ∈ respLogs (handleCapture wFail) ∧
    strBytes "Python stderr:\n" ++ [120] ++ [10] ∈ respLogs (handleCapture wFail) :=
  failure_response_carries_stderr wFail
    { err := some (strBytes "exit status 1"), stdout := [], stderr := [120] }
    (strBytes "exit status 1") rfl rfl

/-- C5: every invocation spawns exactly one child process, the resolved
interpreter invoked with exactly one argument — the fixed script path
`capture.py` — and no response activity (header, status or body write)
happens before the spawn: the handler blocks on the child and only then
examines the outcome.  That stdout and stderr land in two separate
in-memory buffers is structural in the embedding: `RunResult` carries them
as separate fields filled by the single blocking run. -/
theorem spawn_argv_fixed (w : World) :
    spawnsOf (handleCapture w) = [(resolvePythonExec w, [pythonScript])] ∧
    ∀ e ∈ (handleCapture w).takeWhile (fun e => ! isSpawn e), isRespWrite e = false := by
  constructor
  · unfold handleCapture statLogs
    split <;>
      simp [spawnsOf, spawnsOf_append_logElapsed, spawnsOf_respond]
  · unfold handleCapture statLogs
    split
    · intro e he
      simp [List.takeWhile, isSpawn] at he
      simp [he, isRespWrite]
    · intro e he
      simp [List.takeWhile, isSpawn] at he

/-- C6: two invocations whose spawned subprocesses produce identical
outcomes (same spawn/exit result, same stdout bytes, same stderr bytes) and
whose response streams accept the copy identically produce identical HTTP
responses — status, Content-Type and body — regardless of any other
difference between the two requests: each request gets fresh buffers and no
state carries over. -/
theorem responses_determined_by_outcome (w1 w2 : World)
    (hr : w1.run (resolvePythonExec w1) [pythonScript]
        = w2.run (resolvePythonExec w2) [pythonScript])
    (hc : w1.copyErrAfter = w2.copyErrAfter) :
    respStatus (handleCapture w1) = respStatus (handleCapture w2) ∧
    respHeader "Content-Type" (handleCapture w1)
      = respHeader "Content-Type" (handleCapture w2) ∧
    respBody (handleCapture w1) = respBody (handleCapture w2) := by
  refine ⟨?_, ?_, ?_⟩
  · rw [respStatus_handleCapture, respStatus_handleCapture, hr, hc]
  · rw [respHeader_handleCapture, respHeader_handleCapture, hr, hc]
  · rw [respBody_handleCapture, respBody_handleCapture, hr, hc]

/-- A second environment producing the same subprocess outcome as
`wOkData` but differing elsewhere (a virtual environment is present, so the
resolution path and its log line differ). -/
def wOkDataVenv : World :=
  { goos := "linux", statOk := fun _ => true,
    abs := fun _ => some "/srv/app/venv/bin/python3",
    run := fun _ _ => { err := none, stdout := [79, 75, 68, 65, 84, 65], stderr := [] },
    copyErrAfter := none }

/-- Witness for C6: the two concrete environments differ in interpreter
resolution but share the subprocess outcome, and get identical
responses. -/
theorem responses_determined_by_outcome_w :
    respStatus (handleCapture wOkData) = respStatus (handleCapture wOkDataVenv) ∧
    respHeader "Content-Type" (handleCapture wOkData)
      = respHeader "Content-Type" (handleCapture wOkDataVenv) ∧
    respBody (handleCapture wOkData) = respBody (handleCapture wOkDataVenv) :=
  responses_determined_by_outcome wOkData wOkDataVenv rfl rfl

/-- C8: when the copy of the stdout buffer into the response stream fails
after `k` bytes (the 200 status and Content-Type header being already
committed), the handler abandons the response silently: the only effects
from the (partial) body write onward are that write and the deferred
elapsed-time log — no further write, no additional error response — and
exactly one status, 200, is ever committed.  Absence of a panic is
structural: the embedded handler is a total function. -/
theorem copy_failure_abandons_response (w : World) (r : RunResult) (k : Nat)
    (hr : w.run (resolvePythonExec w) [pythonScript] = r)
    (herr : r.err = none) (hne : r.stdout ≠ [])
    (hcopy : w.copyErrAfter = some k) :
    (handleCapture w).dropWhile (fun e => ! isWriteBody e)
        = [Effect.writeBody (r.stdout.take k), Effect.logElapsed] ∧
    statusesOf (handleCapture w) = [200] := by
  constructor
  · unfold handleCapture statLogs
    rw [hr, hcopy]
    split <;>
      simp [respond, herr, isEmpty_false_of_ne_nil hne, List.dropWhile, isWriteBody]
  · rw [statusesOf_handleCapture, hr, hcopy]
    simp [respond, herr, isEmpty_false_of_ne_nil hne, statusesOf]

/-- Concrete environment for the C8 witness: the child exits 0 with three
stdout bytes, and the copy into the response fails after one byte. -/
def wCopyFail : World :=
  { goos := "linux", statOk := fun _ => false, abs := fun _ => none,
    run := fun _ _ => { err := none, stdout := [5, 6, 7], stderr := [] },
    copyErrAfter := some 1 }

/-- Witness for C8 at the concrete disconnecting-client environment. -/
theorem copy_failure_abandons_response_w :
    (handleCapture wCopyFail).dropWhile (fun e => ! isWriteBody e)
        = [Effect.writeBody ([5, 6, 7].take 1), Effect.logElapsed] ∧
    statusesOf (handleCapture wCopyFail) = [200] :=
  copy_failure_abandons_response wCopyFail
    { err := none, stdout := [5, 6, 7], stderr := [] } 1 rfl rfl (by decide) rfl

/-- C9: every 500 response produced by the capture handler — both the
stderr-carrying failure body and the fixed no-data body — has a body equal
to the diagnostic message followed by exactly one trailing newline byte,
and carries the plain-text content type `text/plain; charset=utf-8` set by
`http.Error` rather than `image/png`. -/
theorem error_responses_plaintext_newline (w : World) (r : RunResult)
    (hr : w.run (resolvePythonExec w) [pythonScript] = r) :
    (∀ e, r.err = some e →
      respBody (handleCapture w)
        = (strBytes "Failed to capture fingerprint: " ++ r.stderr) ++ [10] ∧
      respHeader "Content-Type" (handleCapture w)
        = some "text/plain; charset=utf-8") ∧
    (r.err = none → r.stdout = [] →
      respBody (handleCapture w)
        = strBytes "No data received from Python script" ++ [10] ∧
      respHeader "Content-Type" (handleCapture w)
        = some "text/plain; charset=utf-8") := by
  constructor
  · intro e herr
    rw [respBody_handleCapture, respHeader_handleCapture, hr]
    constructor <;> simp [respond, herr, httpError, respBody, respHeader]
  · intro herr hempty
    rw [respBody_handleCapture, respHeader_handleCapture, hr]
    constructor <;> simp [respond, herr, hempty, httpError, respBody, respHeader]

/-- Witness for C9, exercising both 500 bodies at the concrete failing and
empty-output environments. -/
theorem error_responses_plaintext_newline_w :
    (respBody (handleCapture wFail)
        = (strBytes "Failed to capture fingerprint: " ++ [120]) ++ [10] ∧
      respHeader "Content-Type" (handleCapture wFail)
        = some "text/plain; charset=utf-8") ∧
    (respBody (handleCapture wEmptyOut)
        = strBytes "No data received from Python script" ++ [10] ∧
      respHeader "Content-Type" (handleCapture wEmptyOut)
        = some "text/plain; charset=utf-8") :=
  ⟨(error_responses_plaintext_newline wFail
      { err := some (strBytes "exit status 1"), stdout := [], stderr := [120] }
      rfl).1 (strBytes "exit status 1") rfl,
   (error_responses_plaintext_newline wEmptyOut
      { err := none, stdout := [], stderr := [119, 97, 114, 110] }
      rfl).2 rfl rfl⟩

/-- C10: when the virtual-environment interpreter path exists but
`filepath.Abs` fails, the resolution error is discarded and the empty
string becomes the interpreter executable name — not the OS-appropriate
default — so the subsequent spawn (which fails for an empty command name)
leads to a 500 response. -/
theorem abs_failure_empty_interpreter (w : World)
    (hstat : w.statOk (venvPythonPath w.goos) = true)
    (habs : w.abs (venvPythonPath w.goos) = none)
    (hrun : (w.run "" [pythonScript]).err.isSome = true) :
    resolvePythonExec w = "" ∧
    resolvePythonExec w ≠ defaultPythonExec w.goos ∧
    respStatus (handleCapture w) = some 500 := by
  have h1 : resolvePythonExec w = "" := by
    simp [resolvePythonExec, hstat, habs]
  refine ⟨h1, ?_, ?_⟩
  · rw [h1]
    unfold defaultPythonExec
    split <;> decide
  · obtain ⟨e, he⟩ := Option.isSome_iff_exists.mp hrun
    rw [respStatus_handleCapture, h1]
    simp [respond, he, httpError, respStatus]

/-- Concrete environment for the C10 witness: the virtual-environment path
exists, `filepath.Abs` errors, and spawning the empty command name fails. -/
def wAbsFail : World :=
  { goos := "linux", statOk := fun _ => true, abs := fun _ => none,
    run := fun _ _ =>
      { err := some (strBytes "exec: no command"), stdout := [], stderr := [] },
    copyErrAfter := none }

/-- Witness for C10 at the concrete failing-resolution environment. -/
theorem abs_failure_empty_interpreter_w :
    resolvePythonExec wAbsFail = "" ∧
    resolvePythonExec wAbsFail ≠ defaultPythonExec wAbsFail.goos ∧
    respStatus (handleCapture wAbsFail) = some 500 :=
  abs_failure_empty_interpreter wAbsFail rfl rfl rfl

end FingerprintServer
